import Mathlib

/-
Verification development for the scribe web client.

The repository has two source files:
  * src/unnamed/part_000 — the configuration form binder
    (`applyConfigToForm`, `buildConfigFromForm`, `updateProviderLimitsDisplay`;
    the file contains two concatenated revisions, the second one, lines 79-243,
    is the current code and is the one embedded here);
  * src/src/web/static/js/log_export.js — the log/export aggregator
    (`logData`, `addLogEntry`, `addAPICallEntry`, `addRateLimitEvent`,
    `clearLogs`, `exportLogs` and the three serialization formatters).

The embedding is shallow: jQuery form fields become a `FormState` record of
strings/booleans, the process-wide `logData` object becomes a `LogData` record,
and the DOM/download side effects of `exportLogs` become an `ExportEffects`
value listing the `downloadFile` invocations and `showMessage` calls.
Nondeterministic environment reads (`new Date()` timestamps, the
timestamp-derived default filename) are passed in as explicit parameters.
-/

namespace Scribe

/-! ### JavaScript number values

The numbers this program manipulates are written to form fields (which
stringifies them), read back with `parseFloat` / `parseInt`, and tested for
truthiness by `||` defaulting.  They are modeled as exact decimals
`mant * 10 ^ (-dexp)` plus a NaN value.  Every numeric constant in the source
is a short decimal, for which this model agrees with IEEE doubles for the
operations used here (stringification, decimal parsing, zero test). -/

inductive JSNum where
  | nan
  | dec (mant : Int) (dexp : Nat)
deriving DecidableEq, Repr

/-- JavaScript truthiness of a number: `0`, `-0` and `NaN` are falsy. -/
def jsTruthy : JSNum → Bool
  | .nan => false
  | .dec m _ => m != 0

/-- The `v || fallback` defaulting idiom on string values: the empty string is
falsy, every other string is truthy. -/
def jsOrStr (v fallback : String) : String := if v = "" then fallback else v

/-- The `v || fallback` defaulting idiom on number values. -/
def jsOrNum (v fallback : JSNum) : JSNum := if jsTruthy v then v else fallback

/-- Strip trailing decimal zeros: `dec m (e+1)` with `10 ∣ m` denotes the same
number as `dec (m/10) e`.  Used to print the canonical (JavaScript) form. -/
def stripZeros : Int → Nat → Int × Nat
  | m, 0 => (m, 0)
  | m, e + 1 => if m % 10 = 0 then stripZeros (m / 10) e else (m, e + 1)

/-- Left-pad a digit string with zeros up to length `n`. -/
def padLeftZeros (s : String) (n : Nat) : String :=
  if s.length < n then String.mk (List.replicate (n - s.length) '0') ++ s else s

/-- Render `mant * 10 ^ (-dexp)` as a plain decimal numeral. -/
def renderDec (m : Int) (e : Nat) : String :=
  if e = 0 then toString m
  else
    let digits := padLeftZeros (toString m.natAbs) (e + 1)
    let intPart := digits.take (digits.length - e)
    let fracPart := digits.drop (digits.length - e)
    (if m < 0 then "-" else "") ++ intPart ++ "." ++ fracPart

/-- JavaScript number-to-string conversion (`String(x)`, also what jQuery
`.val(number)` stores in a form field).  Exponent notation, which JavaScript
only uses for magnitudes outside `[1e-6, 1e21)`, never arises for the values
this application handles and is not produced. -/
def jsNumToString : JSNum → String
  | .nan => "NaN"
  | .dec m e =>
      let p := stripZeros m e
      renderDec p.1 p.2

/-- Characters `parseFloat` / `parseInt` skip before the number. -/
def jsWhitespace (c : Char) : Bool :=
  c = ' ' || c = '\t' || c = '\n' || c = '\r'

/-- Numeric value of a list of decimal digit characters. -/
def natFromDigits (ds : List Char) : Nat :=
  ds.foldl (fun acc c => acc * 10 + (c.toNat - '0'.toNat)) 0

/-- JavaScript `parseFloat`: skip leading whitespace, optional sign, then the
longest `digits[.digits]` prefix; `NaN` when no digits are found.  Exponent
notation is not parsed: no string this program feeds to `parseFloat` (they are
all produced by `jsNumToString`) contains one. -/
def parseFloat (s : String) : JSNum :=
  let cs := s.toList.dropWhile fun c => jsWhitespace c
  let signAndRest : Int × List Char :=
    match cs with
    | '-' :: rest => (-1, rest)
    | '+' :: rest => (1, rest)
    | _ => (1, cs)
  let sign := signAndRest.1
  let cs := signAndRest.2
  let intDigits := cs.takeWhile Char.isDigit
  let rest := cs.dropWhile Char.isDigit
  match rest with
  | '.' :: rest2 =>
      let fracDigits := rest2.takeWhile Char.isDigit
      if intDigits.isEmpty && fracDigits.isEmpty then JSNum.nan
      else JSNum.dec (sign * (natFromDigits (intDigits ++ fracDigits) : Int)) fracDigits.length
  | _ =>
      if intDigits.isEmpty then JSNum.nan
      else JSNum.dec (sign * (natFromDigits intDigits : Int)) 0

/-- JavaScript `parseInt` with no radix argument on a decimal string: skip
leading whitespace, optional sign, then the longest digit prefix (a fractional
part is truncated away); `NaN` when no digits are found.  The hexadecimal
`0x` prefix case never arises for the strings this program produces. -/
def parseInt (s : String) : JSNum :=
  let cs := s.toList.dropWhile fun c => jsWhitespace c
  let signAndRest : Int × List Char :=
    match cs with
    | '-' :: rest => (-1, rest)
    | '+' :: rest => (1, rest)
    | _ => (1, cs)
  let sign := signAndRest.1
  let cs := signAndRest.2
  let intDigits := cs.takeWhile Char.isDigit
  if intDigits.isEmpty then JSNum.nan
  else JSNum.dec (sign * (natFromDigits intDigits : Int)) 0

/-! ### The configuration record (spec §3) -/

/-- The `llm` section of a configuration record. -/
structure LLMConfig where
  type : String
  api_key : String
  model : String
  temperature : JSNum
  max_tokens : JSNum
deriving DecidableEq, Repr

/-- The `flow_control` section of a configuration record. -/
structure FlowControl where
  max_reader_search_attempts : JSNum
  max_verifier_rejections : JSNum
  status_sleep_time : JSNum
deriving DecidableEq, Repr

/-- The `docstring_options` section of a configuration record. -/
structure DocstringOptions where
  overwrite_docstrings : Bool
deriving DecidableEq, Repr

/-- The `user_overrides` section of a configuration record. -/
structure UserOverrides where
  enable_conservative_limits : Bool
  max_components_per_minute : JSNum
  delay_between_requests : JSNum
  enable_batch_processing : Bool
  batch_size : JSNum
deriving DecidableEq, Repr

/-- A configuration record.  Sections the code tests with `if (config.x)` are
`Option`s; `current_provider_tier` is a string whose absence coincides with
falsiness (the empty string), exactly how `if (config.current_provider_tier)`
sees it. -/
structure Config where
  llm : Option LLMConfig
  flow_control : Option FlowControl
  docstring_options : Option DocstringOptions
  current_provider_tier : String
  user_overrides : Option UserOverrides
deriving DecidableEq, Repr

/-! ### The form (the jQuery-bound controls) -/

/-- The form controls the binder reads and writes, one field per element id,
plus the `#provider-limits-display` region that `updateProviderLimitsDisplay`
renders into.  Text inputs and selects hold strings, checkboxes booleans. -/
structure FormState where
  llmType : String
  llmApiKey : String
  llmModel : String
  llmTemperature : String
  llmMaxTokens : String
  providerTier : String
  enableConservativeLimits : Bool
  maxComponentsPerMinute : String
  delayBetweenRequests : String
  enableBatchProcessing : Bool
  batchSize : String
  maxReaderSearchAttempts : String
  maxVerifierRejections : String
  statusSleepTime : String
  overwriteDocstrings : Bool
  providerLimitsDisplay : String
deriving DecidableEq, Repr

/-! ### Provider limits display (part_000 lines 183-232) -/

/-- One entry of the static `providerLimits` table. -/
structure ProviderLimits where
  requests : Nat
  input : String
  output : String
  tier : String
deriving DecidableEq, Repr

/-- The static `{provider × tier → limits}` table inside
`updateProviderLimitsDisplay`. -/
def providerLimits (provider tier : String) : Option ProviderLimits :=
  if provider = "gemini" then
    if tier = "free" then some ⟨150, "1M", "1M", "Free"⟩
    else if tier = "pay_as_you_go" then some ⟨150, "1M", "1M", "Pay-as-you-go"⟩
    else if tier = "enterprise" then some ⟨150, "1M", "1M", "Enterprise"⟩
    else none
  else if provider = "claude" then
    if tier = "standard" then some ⟨50, "20K", "8K", "Standard"⟩
    else if tier = "premium" then some ⟨500, "200K", "100K", "Premium"⟩
    else none
  else if provider = "openai" then
    if tier = "standard" then some ⟨500, "200K", "100K", "Standard"⟩
    else if tier = "premium" then some ⟨10000, "2M", "1M", "Premium"⟩
    else none
  else none

/-- The HTML written to `#provider-limits-display` when a limits entry was
found (the template literal of the source, whitespace included). -/
def limitsHtml (limits : ProviderLimits) (effectiveRequests : Nat) : String :=
  "\n            <div class=\"row\">\n                <div class=\"col-6\">\n                    <small><strong>Requests/Min:</strong><br>"
    ++ toString limits.requests ++ " (using " ++ toString effectiveRequests ++ ")</small>\n                </div>\n                <div class=\"col-6\">\n                    <small><strong>Input Tokens:</strong><br>"
    ++ limits.input ++ "</small>\n                </div>\n            </div>\n            <div class=\"row mt-1\">\n                <div class=\"col-6\">\n                    <small><strong>Output Tokens:</strong><br>"
    ++ limits.output ++ "</small>\n                </div>\n                <div class=\"col-6\">\n                    <small><strong>Tier:</strong><br>"
    ++ limits.tier ++ "</small>\n                </div>\n            </div>\n        "

/-- The placeholder HTML written when no limits entry matches. -/
def noLimitsHtml : String :=
  "<small class=\"text-muted\">Select provider and tier to see limits</small>"

/-- `updateProviderLimitsDisplay` as a function of the two selects it reads:
look up the static table; on a hit render the limits with the conservative
effective request quota `Math.floor(limits.requests * 0.8)`, otherwise render
the placeholder.  The source computes the quota on doubles; for every entry of
the static table (150, 50, 500, 10000) the rounded double product equals the
exact product, so the exact `requests * 8 / 10` (natural floor division) below
coincides with the JavaScript value. -/
def updateProviderLimitsDisplay (provider tier : String) : String :=
  match providerLimits provider tier with
  | some limits => limitsHtml limits (limits.requests * 8 / 10)
  | none => noLimitsHtml

/-! ### applyConfigToForm (part_000 lines 108-145) and
     buildConfigFromForm (lines 152-178) -/

/-- `applyConfigToForm`: for each section present (truthy) in the input, write
its values into the corresponding controls, replacing each falsy field value by
its hard-coded fallback (`x || fallback`); between the `user_overrides` and
`flow_control` blocks the source unconditionally calls
`updateProviderLimitsDisplay()`, which reads the (possibly just written)
`#llm-type` and `#provider-tier` controls.  Sections absent from the input are
skipped wholesale, leaving their controls untouched. -/
def applyConfigToForm (config : Config) (form : FormState) : FormState :=
  let form := match config.llm with
    | some llm =>
        { form with
          llmType := jsOrStr llm.type "gemini",
          llmApiKey := jsOrStr llm.api_key "",
          llmModel := jsOrStr llm.model "gemini-2.5-pro",
          llmTemperature := jsNumToString (jsOrNum llm.temperature (JSNum.dec 1 1)),
          llmMaxTokens := jsNumToString (jsOrNum llm.max_tokens (JSNum.dec 16384 0)) }
    | none => form
  let form := if config.current_provider_tier = "" then form
    else { form with providerTier := config.current_provider_tier }
  let form := match config.user_overrides with
    | some uo =>
        { form with
          enableConservativeLimits := uo.enable_conservative_limits != false,
          maxComponentsPerMinute := jsNumToString (jsOrNum uo.max_components_per_minute (JSNum.dec 8 0)),
          delayBetweenRequests := jsNumToString (jsOrNum uo.delay_between_requests (JSNum.dec 2000 0)),
          enableBatchProcessing := uo.enable_batch_processing != false,
          batchSize := jsNumToString (jsOrNum uo.batch_size (JSNum.dec 3 0)) }
    | none => form
  let form := { form with
    providerLimitsDisplay := updateProviderLimitsDisplay form.llmType form.providerTier }
  let form := match config.flow_control with
    | some fc =>
        { form with
          maxReaderSearchAttempts := jsNumToString (jsOrNum fc.max_reader_search_attempts (JSNum.dec 2 0)),
          maxVerifierRejections := jsNumToString (jsOrNum fc.max_verifier_rejections (JSNum.dec 1 0)),
          statusSleepTime := jsNumToString (jsOrNum fc.status_sleep_time (JSNum.dec 1 0)) }
    | none => form
  match config.docstring_options with
  | some dso => { form with overwriteDocstrings := dso.overwrite_docstrings || false }
  | none => form

/-- `buildConfigFromForm`: read every bound control back into a configuration
record, numeric fields parsed with `parseInt` / `parseFloat` per field. -/
def buildConfigFromForm (form : FormState) : Config :=
  { llm := some
      { type := form.llmType,
        api_key := form.llmApiKey,
        model := form.llmModel,
        temperature := parseFloat form.llmTemperature,
        max_tokens := parseInt form.llmMaxTokens },
    flow_control := some
      { max_reader_search_attempts := parseInt form.maxReaderSearchAttempts,
        max_verifier_rejections := parseInt form.maxVerifierRejections,
        status_sleep_time := parseFloat form.statusSleepTime },
    docstring_options := some { overwrite_docstrings := form.overwriteDocstrings },
    current_provider_tier := form.providerTier,
    user_overrides := some
      { enable_conservative_limits := form.enableConservativeLimits,
        max_components_per_minute := parseInt form.maxComponentsPerMinute,
        delay_between_requests := parseInt form.delayBetweenRequests,
        enable_batch_processing := form.enableBatchProcessing,
        batch_size := parseInt form.batchSize } }

/-- The configuration the round-trip claim says
`buildConfigFromForm ∘ applyConfigToForm` should return: the input record with
every numeric field replaced by the parse (integer or floating-point, per the
field used by `buildConfigFromForm`) of its string form. -/
def roundTripExpected (config : Config) : Config :=
  { llm := config.llm.map fun l =>
      { type := l.type,
        api_key := l.api_key,
        model := l.model,
        temperature := parseFloat (jsNumToString l.temperature),
        max_tokens := parseInt (jsNumToString l.max_tokens) },
    flow_control := config.flow_control.map fun fc =>
      { max_reader_search_attempts := parseInt (jsNumToString fc.max_reader_search_attempts),
        max_verifier_rejections := parseInt (jsNumToString fc.max_verifier_rejections),
        status_sleep_time := parseFloat (jsNumToString fc.status_sleep_time) },
    docstring_options := config.docstring_options,
    current_provider_tier := config.current_provider_tier,
    user_overrides := config.user_overrides.map fun uo =>
      { enable_conservative_limits := uo.enable_conservative_limits,
        max_components_per_minute := parseInt (jsNumToString uo.max_components_per_minute),
        delay_between_requests := parseInt (jsNumToString uo.delay_between_requests),
        enable_batch_processing := uo.enable_batch_processing,
        batch_size := parseInt (jsNumToString uo.batch_size) } }

/-! ### The log/export aggregator state (log_export.js lines 9-23) -/

/-- One entry of `logData.logs` (built by `addLogEntry`). -/
structure LogEntry where
  timestamp : String
  level : String
  message : String
  details : Option String
deriving DecidableEq, Repr

/-- One entry of `logData.apiCalls` (built by `addAPICallEntry`).  The token
counts and the duration are nonnegative integers in every call site, so they
are modeled as naturals; the code only ever interpolates them into strings. -/
structure ApiCall where
  timestamp : String
  provider : String
  model : String
  inputTokens : Nat
  outputTokens : Nat
  duration : Nat
  error : Option String
deriving DecidableEq, Repr

/-- One entry of `logData.rateLimitEvents` (built by `addRateLimitEvent`). -/
structure RateLimitEvent where
  timestamp : String
  type : String
  provider : String
  limitType : String
  currentUsage : Nat
  limit : Nat
  message : String
  level : String
deriving DecidableEq, Repr

/-- The `logData.stats` record.  `startTime` / `endTime` hold the stringified
timestamps the code stores there (`null` before they are stamped). -/
structure Stats where
  startTime : Option String
  endTime : Option String
  totalComponents : Nat
  processedComponents : Nat
  errors : Nat
  warnings : Nat
deriving DecidableEq, Repr

/-- The process-wide `logData` object. -/
structure LogData where
  logs : List LogEntry
  apiCalls : List ApiCall
  rateLimitEvents : List RateLimitEvent
  config : Option Config
  stats : Stats
deriving DecidableEq, Repr

/-- The initializer of the global `logData` (lines 10-23). -/
def initialLogData : LogData :=
  { logs := [], apiCalls := [], rateLimitEvents := [], config := none,
    stats := { startTime := none, endTime := none, totalComponents := 0,
               processedComponents := 0, errors := 0, warnings := 0 } }

/-! ### Aggregator operations -/

/-- `addLogEntry(level, message, details = null)` (lines 307-323): push one
entry onto `logData.logs`, then bump `stats.errors` when the level is `ERROR`,
else bump `stats.warnings` when it is `WARNING`.  The `new Date().toISOString()`
timestamp is an explicit parameter. -/
def addLogEntry (ts level message : String) (details : Option String) (d : LogData) : LogData :=
  let d := { d with logs := d.logs ++ [⟨ts, level, message, details⟩] }
  if level = "ERROR" then { d with stats.errors := d.stats.errors + 1 }
  else if level = "WARNING" then { d with stats.warnings := d.stats.warnings + 1 }
  else d

/-- `addAPICallEntry` (lines 328-340): push one entry onto `logData.apiCalls`. -/
def addAPICallEntry (ts provider model : String) (inputTokens outputTokens duration : Nat)
    (error : Option String) (d : LogData) : LogData :=
  { d with apiCalls := d.apiCalls ++ [⟨ts, provider, model, inputTokens, outputTokens, duration, error⟩] }

/-- `addRateLimitEvent(type, provider, limitType, currentUsage, limit, message)`
(lines 345-361): push one event onto `logData.rateLimitEvents` with derived
level `WARNING` for kind `RATE_LIMIT_HIT` and `INFO` otherwise, then record the
same information as a log entry via `addLogEntry`.  The two `new Date()` calls
are the `tsEvent` / `tsLog` parameters. -/
def addRateLimitEvent (tsEvent tsLog type provider limitType : String)
    (currentUsage limit : Nat) (message : String) (d : LogData) : LogData :=
  let level := if type = "RATE_LIMIT_HIT" then "WARNING" else "INFO"
  let d := { d with rateLimitEvents :=
      d.rateLimitEvents ++ [⟨tsEvent, type, provider, limitType, currentUsage, limit, message, level⟩] }
  addLogEntry tsLog level ("Rate Limit Event: " ++ message) none d

/-- `clearLogs` (lines 57-76): behind the `confirm(...)` prompt (the boolean
parameter), empty the three sequences and zero the error/warning counters;
the `#log-content` placeholder HTML and the `showMessage` toast are display
effects outside `logData`.  Without confirmation nothing changes. -/
def clearLogs (confirmed : Bool) (d : LogData) : LogData :=
  if confirmed then
    { d with logs := [], apiCalls := [], rateLimitEvents := [],
             stats.errors := 0, stats.warnings := 0 }
  else d

/-- `updateConfigForExport` (lines 366-368). -/
def updateConfigForExport (config : Config) (d : LogData) : LogData :=
  { d with config := some config }

/-- `markProcessingComplete` (lines 380-382); the ISO timestamp is a
parameter. -/
def markProcessingComplete (ts : String) (d : LogData) : LogData :=
  { d with stats.endTime := some ts }

/-! ### The export snapshot (`exportData` in `exportLogs`, lines 86-112) -/

/-- The `metadata` block of every export. -/
structure Metadata where
  exportTime : String
  format : String
  version : String
deriving DecidableEq, Repr

/-- The snapshot `exportLogs` assembles: metadata plus one optional key per
section checkbox.  A `none` means the key is absent from the JavaScript object
(the checkbox was unchecked); `config` is doubly optional because a present
key can still hold `null`. -/
structure ExportData where
  metadata : Metadata
  logs : Option (List LogEntry)
  apiCalls : Option (List ApiCall)
  rateLimitEvents : Option (List RateLimitEvent)
  config : Option (Option Config)
  stats : Option Stats
deriving DecidableEq, Repr

/-- The five section checkboxes of the export modal. -/
structure Sections where
  includeLogs : Bool
  includeApiCalls : Bool
  includeRateLimits : Bool
  includeConfig : Bool
  includeStats : Bool
deriving DecidableEq, Repr

/-- Lines 86-112 of `exportLogs`: the snapshot holds exactly the checked
sections, read from the aggregator state. -/
def buildExportData (sections : Sections) (d : LogData) (exportTime format : String) : ExportData :=
  { metadata := ⟨exportTime, format, "1.0"⟩,
    logs := if sections.includeLogs then some d.logs else none,
    apiCalls := if sections.includeApiCalls then some d.apiCalls else none,
    rateLimitEvents := if sections.includeRateLimits then some d.rateLimitEvents else none,
    config := if sections.includeConfig then some d.config else none,
    stats := if sections.includeStats then some d.stats else none }

/-! ### JSON serialization (`JSON.stringify(exportData, null, 2)`) -/

/-- A JSON value, as produced by serializing the snapshot. -/
inductive JVal where
  | null
  | bool (b : Bool)
  | num (n : JSNum)
  | str (s : String)
  | arr (items : List JVal)
  | obj (fields : List (String × JVal))

/-- Escape one character inside a JSON string literal, as
`JSON.stringify` does. -/
def jsonEscapeChar (c : Char) : String :=
  if c = '"' then "\\\""
  else if c = '\\' then "\\\\"
  else if c = '\x08' then "\\b"
  else if c = '\t' then "\\t"
  else if c = '\n' then "\\n"
  else if c = '\x0c' then "\\f"
  else if c = '\r' then "\\r"
  else if c.toNat < 32 then
    "\\u00" ++ String.mk [Nat.digitChar (c.toNat / 16), Nat.digitChar (c.toNat % 16)]
  else String.singleton c

/-- A JSON string literal with its surrounding quotes. -/
def jsonQuote (s : String) : String :=
  "\"" ++ String.join (s.toList.map jsonEscapeChar) ++ "\""

/-- Spaces used for `JSON.stringify`'s two-space indentation. -/
def spacesStr (n : Nat) : String := String.mk (List.replicate n ' ')

mutual

/-- `JSON.stringify(v, null, 2)` at indentation depth `ind`: scalars inline,
non-empty arrays and objects broken over lines with two-space indentation,
empty ones printed as `[]` and `\x7b\x7d`. -/
def stringifyVal (ind : Nat) : JVal → String
  | JVal.null => "null"
  | JVal.bool b => if b then "true" else "false"
  | JVal.num n => jsNumToString n
  | JVal.str s => jsonQuote s
  | JVal.arr [] => "[]"
  | JVal.arr (x :: xs) =>
      "[\n" ++ stringifyItems (ind + 2) (x :: xs) ++ "\n" ++ spacesStr ind ++ "]"
  | JVal.obj [] => "\x7b\x7d"
  | JVal.obj (f :: fs) =>
      "\x7b\n" ++ stringifyFields (ind + 2) (f :: fs) ++ "\n" ++ spacesStr ind ++ "\x7d"

/-- The comma-and-newline separated items of a serialized JSON array. -/
def stringifyItems (ind : Nat) : List JVal → String
  | [] => ""
  | [x] => spacesStr ind ++ stringifyVal ind x
  | x :: y :: xs =>
      spacesStr ind ++ stringifyVal ind x ++ ",\n" ++ stringifyItems ind (y :: xs)

/-- The comma-and-newline separated key-value pairs of a serialized JSON
object. -/
def stringifyFields (ind : Nat) : List (String × JVal) → String
  | [] => ""
  | [(k, v)] => spacesStr ind ++ jsonQuote k ++ ": " ++ stringifyVal ind v
  | (k, v) :: g :: fs =>
      spacesStr ind ++ jsonQuote k ++ ": " ++ stringifyVal ind v ++ ",\n"
        ++ stringifyFields ind (g :: fs)

end

/-- The JSON object for one log entry. -/
def logEntryToJVal (log : LogEntry) : JVal :=
  JVal.obj [("timestamp", JVal.str log.timestamp), ("level", JVal.str log.level),
    ("message", JVal.str log.message),
    ("details", match log.details with | some s => JVal.str s | none => JVal.null)]

/-- A natural number as a JSON number. -/
def natJVal (n : Nat) : JVal := JVal.num (JSNum.dec (n : Int) 0)

/-- The JSON object for one API call entry. -/
def apiCallToJVal (call : ApiCall) : JVal :=
  JVal.obj [("timestamp", JVal.str call.timestamp), ("provider", JVal.str call.provider),
    ("model", JVal.str call.model), ("inputTokens", natJVal call.inputTokens),
    ("outputTokens", natJVal call.outputTokens), ("duration", natJVal call.duration),
    ("error", match call.error with | some s => JVal.str s | none => JVal.null)]

/-- The JSON object for one rate-limit event. -/
def rateLimitEventToJVal (event : RateLimitEvent) : JVal :=
  JVal.obj [("timestamp", JVal.str event.timestamp), ("type", JVal.str event.type),
    ("provider", JVal.str event.provider), ("limitType", JVal.str event.limitType),
    ("currentUsage", natJVal event.currentUsage), ("limit", natJVal event.limit),
    ("message", JVal.str event.message), ("level", JVal.str event.level)]

/-- The JSON object for a configuration record; absent (`none`) sections are
absent keys, exactly as `JSON.stringify` omits `undefined` properties. -/
def configToJVal (c : Config) : JVal :=
  JVal.obj
    ((match c.llm with
      | some l => [("llm", JVal.obj [("type", JVal.str l.type),
          ("api_key", JVal.str l.api_key), ("model", JVal.str l.model),
          ("temperature", JVal.num l.temperature), ("max_tokens", JVal.num l.max_tokens)])]
      | none => [])
    ++ (match c.flow_control with
      | some fc => [("flow_control", JVal.obj [
          ("max_reader_search_attempts", JVal.num fc.max_reader_search_attempts),
          ("max_verifier_rejections", JVal.num fc.max_verifier_rejections),
          ("status_sleep_time", JVal.num fc.status_sleep_time)])]
      | none => [])
    ++ (match c.docstring_options with
      | some o => [("docstring_options", JVal.obj [
          ("overwrite_docstrings", JVal.bool o.overwrite_docstrings)])]
      | none => [])
    ++ [("current_provider_tier", JVal.str c.current_provider_tier)]
    ++ (match c.user_overrides with
      | some uo => [("user_overrides", JVal.obj [
          ("enable_conservative_limits", JVal.bool uo.enable_conservative_limits),
          ("max_components_per_minute", JVal.num uo.max_components_per_minute),
          ("delay_between_requests", JVal.num uo.delay_between_requests),
          ("enable_batch_processing", JVal.bool uo.enable_batch_processing),
          ("batch_size", JVal.num uo.batch_size)])]
      | none => []))

/-- The JSON object for the statistics record. -/
def statsToJVal (stats : Stats) : JVal :=
  JVal.obj [
    ("startTime", match stats.startTime with | some s => JVal.str s | none => JVal.null),
    ("endTime", match stats.endTime with | some s => JVal.str s | none => JVal.null),
    ("totalComponents", natJVal stats.totalComponents),
    ("processedComponents", natJVal stats.processedComponents),
    ("errors", natJVal stats.errors), ("warnings", natJVal stats.warnings)]

/-- The snapshot as a JSON object: the `metadata` key followed by the present
section keys, in the insertion order of `exportLogs`. -/
def exportDataToJVal (data : ExportData) : JVal :=
  JVal.obj
    ([("metadata", JVal.obj [("exportTime", JVal.str data.metadata.exportTime),
        ("format", JVal.str data.metadata.format),
        ("version", JVal.str data.metadata.version)])]
    ++ (match data.logs with
        | some logs => [("logs", JVal.arr (logs.map logEntryToJVal))] | none => [])
    ++ (match data.apiCalls with
        | some calls => [("apiCalls", JVal.arr (calls.map apiCallToJVal))] | none => [])
    ++ (match data.rateLimitEvents with
        | some events => [("rateLimitEvents", JVal.arr (events.map rateLimitEventToJVal))]
        | none => [])
    ++ (match data.config with
        | some (some c) => [("config", configToJVal c)]
        | some none => [("config", JVal.null)]
        | none => [])
    ++ (match data.stats with
        | some stats => [("stats", statsToJVal stats)] | none => []))

/-- The `json` branch of `exportLogs`: `JSON.stringify(exportData, null, 2)`. -/
def jsonStringify (data : ExportData) : String :=
  stringifyVal 0 (exportDataToJVal data)

/-! ### Text export (`generateTextExport`, lines 152-224) -/

/-- A row of `=` characters (`'='.repeat(n)`). -/
def eqRepeat (n : Nat) : String := String.mk (List.replicate n '=')

/-- The `x || fallback` idiom on an optional string (absent and empty are both
falsy). -/
def optDisplay (v : Option String) (fallback : String) : String :=
  match v with
  | some s => if s = "" then fallback else s
  | none => fallback

/-- The truthiness-guarded `, Error: ...` suffix (`call.error ? ... : ''`). -/
def errSuffix : Option String → String
  | some e => if e = "" then "" else ", Error: " ++ e
  | none => ""

/-- `generateTextExport`: the fixed preamble, then one block per present (and,
for the sequences, non-empty) section, each rendered with the source's
template literals. -/
def generateTextExport (data : ExportData) : String :=
  let text := "Scribe Processing Logs Export\nGenerated: " ++ data.metadata.exportTime
    ++ "\nFormat: " ++ data.metadata.format ++ "\nVersion: " ++ data.metadata.version
    ++ "\n\n" ++ eqRepeat 50 ++ "\n\n"
  let text := text ++ (match data.config with
    | some (some c) =>
        "CONFIGURATION\n" ++ eqRepeat 20 ++ "\n"
        ++ "Provider: " ++ optDisplay (c.llm.map fun l => l.type) "Unknown"
        ++ "\nModel: " ++ optDisplay (c.llm.map fun l => l.model) "Unknown"
        ++ "\nAPI Tier: " ++ (if c.current_provider_tier = "" then "Unknown" else c.current_provider_tier)
        ++ "\n\n"
    | _ => "")
  let text := text ++ (match data.stats with
    | some stats =>
        "PROCESSING STATISTICS\n" ++ eqRepeat 25 ++ "\n"
        ++ "Start Time: " ++ optDisplay stats.startTime "Unknown"
        ++ "\nEnd Time: " ++ optDisplay stats.endTime "In Progress"
        ++ "\nTotal Components: " ++ toString stats.totalComponents
        ++ "\nProcessed Components: " ++ toString stats.processedComponents
        ++ "\nErrors: " ++ toString stats.errors
        ++ "\nWarnings: " ++ toString stats.warnings ++ "\n\n"
    | none => "")
  let text := text ++ (match data.logs with
    | some logs =>
        if 0 < logs.length then
          "PROCESSING LOGS\n" ++ eqRepeat 20 ++ "\n"
          ++ String.join (logs.map fun log =>
              "[" ++ log.timestamp ++ "] " ++ log.level ++ ": " ++ log.message ++ "\n")
          ++ "\n"
        else ""
    | none => "")
  let text := text ++ (match data.apiCalls with
    | some calls =>
        if 0 < calls.length then
          "API CALLS\n" ++ eqRepeat 15 ++ "\n"
          ++ String.join (calls.map fun call =>
              "[" ++ call.timestamp ++ "] " ++ call.provider ++ " - " ++ call.model ++ "\n"
              ++ "  Request: " ++ toString call.inputTokens ++ " tokens\n"
              ++ "  Response: " ++ toString call.outputTokens ++ " tokens\n"
              ++ "  Duration: " ++ toString call.duration ++ "ms\n"
              ++ (match call.error with
                  | some e => if e = "" then "" else "  Error: " ++ e ++ "\n"
                  | none => "")
              ++ "\n")
        else ""
    | none => "")
  text ++ (match data.rateLimitEvents with
    | some events =>
        if 0 < events.length then
          "RATE LIMIT EVENTS\n" ++ eqRepeat 20 ++ "\n"
          ++ String.join (events.map fun event =>
              "[" ++ event.timestamp ++ "] " ++ event.type ++ ": " ++ event.message ++ "\n"
              ++ "  Provider: " ++ event.provider ++ "\n"
              ++ "  Limit: " ++ event.limitType ++ "\n"
              ++ "  Current Usage: " ++ toString event.currentUsage ++ "/" ++ toString event.limit
              ++ "\n\n")
        else ""
    | none => "")

/-! ### CSV export (`generateCSVExport`, lines 229-285) -/

/-- The CSV header labels. -/
def csvHeaders : List String :=
  ["Timestamp", "Type", "Level", "Provider", "Model", "Message", "Details"]

/-- The global quote-doubling replacement `s.replace(/"/g, String.mk ['"', '"'])`. -/
def csvEscape (s : String) : String :=
  String.join (s.toList.map fun c => if c = '"' then "\"\"" else String.singleton c)

/-- The CSV row for one log entry (lines 239-248): only the message has its
quotes doubled. -/
def logCsvRow (log : LogEntry) : String :=
  String.intercalate "," ["\"" ++ log.timestamp ++ "\"", "\"Log\"",
    "\"" ++ log.level ++ "\"", "\"\"", "\"\"",
    "\"" ++ csvEscape log.message ++ "\"", "\"\""] ++ "\n"

/-- The CSV row for one API call (lines 255-264): no quote escaping at all. -/
def apiCsvRow (call : ApiCall) : String :=
  String.intercalate "," ["\"" ++ call.timestamp ++ "\"", "\"API Call\"", "\"INFO\"",
    "\"" ++ call.provider ++ "\"", "\"" ++ call.model ++ "\"",
    "\"API Call - " ++ toString call.inputTokens ++ " input, "
      ++ toString call.outputTokens ++ " output tokens\"",
    "\"Duration: " ++ toString call.duration ++ "ms" ++ errSuffix call.error ++ "\""] ++ "\n"

/-- The CSV row for one rate-limit event (lines 271-280): only the message has
its quotes doubled. -/
def rateCsvRow (event : RateLimitEvent) : String :=
  String.intercalate "," ["\"" ++ event.timestamp ++ "\"", "\"Rate Limit\"",
    "\"" ++ event.level ++ "\"", "\"" ++ event.provider ++ "\"", "\"\"",
    "\"" ++ csvEscape event.message ++ "\"",
    "\"" ++ event.limitType ++ ": " ++ toString event.currentUsage ++ "/"
      ++ toString event.limit ++ "\""] ++ "\n"

/-- `generateCSVExport`: the joined header row, then the rows of each present
non-empty section accumulated in source order (logs, API calls, rate-limit
events). -/
def generateCSVExport (data : ExportData) : String :=
  let csv := String.intercalate "," csvHeaders ++ "\n"
  let csv := csv ++ (match data.logs with
    | some logs => if 0 < logs.length then String.join (logs.map logCsvRow) else ""
    | none => "")
  let csv := csv ++ (match data.apiCalls with
    | some calls => if 0 < calls.length then String.join (calls.map apiCsvRow) else ""
    | none => "")
  csv ++ (match data.rateLimitEvents with
    | some events => if 0 < events.length then String.join (events.map rateCsvRow) else ""
    | none => "")

/-! ### exportLogs (lines 81-147) and its effects -/

/-- One `downloadFile(content, filename, mimeType)` invocation. -/
structure DownloadCall where
  content : String
  filename : String
  mimeType : String
deriving DecidableEq, Repr

/-- The observable outcome of one `exportLogs` call: the `downloadFile`
invocations, the `showMessage(kind, text)` calls, and whether the modal was
hidden. -/
structure ExportEffects where
  downloads : List DownloadCall
  messages : List (String × String)
  modalClosed : Bool
deriving DecidableEq, Repr

/-- The tail of a successful `exportLogs` run (lines 141-146): one download of
the generated content, the modal hidden, and a success toast. -/
def finishExport (content filename extension mimeType : String) : ExportEffects :=
  { downloads := [⟨content, filename ++ "." ++ extension, mimeType⟩],
    messages := [("success", "Logs exported successfully as " ++ filename ++ "." ++ extension)],
    modalClosed := true }

/-- `exportLogs`: derive the filename (empty input falls back to the
timestamped default, a parameter here), assemble the snapshot for the checked
sections, then dispatch on the format string; the three known formats download
the serialized snapshot, any other format only shows the
`Unknown export format` error and returns before generating anything. -/
def exportLogs (format filenameInput defaultFilename : String) (sections : Sections)
    (d : LogData) (exportTime : String) : ExportEffects :=
  let filename := if filenameInput = "" then defaultFilename else filenameInput
  let exportData := buildExportData sections d exportTime format
  if format = "json" then
    finishExport (jsonStringify exportData) filename "json" "application/json"
  else if format = "txt" then
    finishExport (generateTextExport exportData) filename "txt" "text/plain"
  else if format = "csv" then
    finishExport (generateCSVExport exportData) filename "csv" "text/csv"
  else
    { downloads := [], messages := [("error", "Unknown export format")], modalClosed := false }

/-! ### Spec-side definitions for the claims -/

/-- The section selection of claim C5: only the logs checkbox checked. -/
def onlyLogsSections : Sections := ⟨true, false, false, false, false⟩

/-- Modelled from the claim wording for C7 (spec §4.2, CSV bullet): a log row
in which "every embedded double-quote character in a record's field values" is
"escaped by doubling", i.e. `csvEscape` applied to each substituted value. -/
def logCsvRowClaimed (log : LogEntry) : String :=
  String.intercalate "," ["\"" ++ csvEscape log.timestamp ++ "\"", "\"Log\"",
    "\"" ++ csvEscape log.level ++ "\"", "\"\"", "\"\"",
    "\"" ++ csvEscape log.message ++ "\"", "\"\""] ++ "\n"

/-- Modelled from the claim wording for C7: the API-call row with every
substituted field value quote-doubled. -/
def apiCsvRowClaimed (call : ApiCall) : String :=
  String.intercalate "," ["\"" ++ csvEscape call.timestamp ++ "\"", "\"API Call\"", "\"INFO\"",
    "\"" ++ csvEscape call.provider ++ "\"", "\"" ++ csvEscape call.model ++ "\"",
    "\"" ++ csvEscape ("API Call - " ++ toString call.inputTokens ++ " input, "
      ++ toString call.outputTokens ++ " output tokens") ++ "\"",
    "\"" ++ csvEscape ("Duration: " ++ toString call.duration ++ "ms" ++ errSuffix call.error)
      ++ "\""] ++ "\n"

/-- Modelled from the claim wording for C7: the rate-limit row with every
substituted field value quote-doubled. -/
def rateCsvRowClaimed (event : RateLimitEvent) : String :=
  String.intercalate "," ["\"" ++ csvEscape event.timestamp ++ "\"", "\"Rate Limit\"",
    "\"" ++ csvEscape event.level ++ "\"", "\"" ++ csvEscape event.provider ++ "\"", "\"\"",
    "\"" ++ csvEscape event.message ++ "\"",
    "\"" ++ csvEscape (event.limitType ++ ": " ++ toString event.currentUsage ++ "/"
      ++ toString event.limit) ++ "\""] ++ "\n"

/-- Modelled from the claim wording for C7: header row, then one row per log
entry, API call and rate-limit event in that order, every field value
quote-doubled. -/
def generateCSVExportClaimed (data : ExportData) : String :=
  String.intercalate "," csvHeaders ++ "\n"
    ++ String.join ((data.logs.getD []).map logCsvRowClaimed)
    ++ String.join ((data.apiCalls.getD []).map apiCsvRowClaimed)
    ++ String.join ((data.rateLimitEvents.getD []).map rateCsvRowClaimed)

/-- The amended C7 description: header row, then one row per log entry, API
call and rate-limit event in that order, using the rows the code actually
builds (quotes doubled only in the two message fields). -/
def generateCSVExportSpec (data : ExportData) : String :=
  String.intercalate "," csvHeaders ++ "\n"
    ++ String.join ((data.logs.getD []).map logCsvRow)
    ++ String.join ((data.apiCalls.getD []).map apiCsvRow)
    ++ String.join ((data.rateLimitEvents.getD []).map rateCsvRow)

/-! ### Helper lemmas -/

/-- The `length > 0` guards in the formatters are redundant: on an empty list
the guarded accumulation and the plain join both produce the empty string. -/
theorem join_map_if_pos {α : Type} (l : List α) (f : α → String) :
    (if 0 < l.length then String.join (l.map f) else "") = String.join (l.map f) := by
  cases l <;> simp [String.join]

/-- Joining no strings yields the empty string. -/
theorem string_join_nil : String.join [] = "" := rfl

/-! ### Claim theorems -/

/-- Claim C3: for every prior aggregator state, `addRateLimitEvent` with kind
`RATE_LIMIT_HIT` increments the warnings counter by exactly 1, appends exactly
one entry to the rate-limit-events sequence, and appends exactly one entry to
the logs sequence. -/
theorem addRateLimitEvent_hit_counts (tsEvent tsLog provider limitType : String)
    (currentUsage limit : Nat) (message : String) (d : LogData) :
    (addRateLimitEvent tsEvent tsLog "RATE_LIMIT_HIT" provider limitType currentUsage limit message d).stats.warnings
        = d.stats.warnings + 1 ∧
    (addRateLimitEvent tsEvent tsLog "RATE_LIMIT_HIT" provider limitType currentUsage limit message d).rateLimitEvents.length
        = d.rateLimitEvents.length + 1 ∧
    (addRateLimitEvent tsEvent tsLog "RATE_LIMIT_HIT" provider limitType currentUsage limit message d).logs.length
        = d.logs.length + 1 := by
  simp [addRateLimitEvent, addLogEntry]

/-- Claim C4: for every prior aggregator state, a confirmed `clearLogs` leaves
the logs, apiCalls and rateLimitEvents sequences empty and the errors and
warnings counters at 0. -/
theorem clearLogs_resets (d : LogData) :
    (clearLogs true d).logs = [] ∧
    (clearLogs true d).apiCalls = [] ∧
    (clearLogs true d).rateLimitEvents = [] ∧
    (clearLogs true d).stats.errors = 0 ∧
    (clearLogs true d).stats.warnings = 0 := by
  simp [clearLogs]

/-- Claim C9: for every prior aggregator state and every level, `addLogEntry`
appends exactly one entry to the logs sequence, increments the errors counter
by 1 exactly when the level is `ERROR`, increments the warnings counter by 1
exactly when the level is `WARNING`, and leaves the remaining statistics
fields unchanged. -/
theorem addLogEntry_effects (ts level message : String) (details : Option String) (d : LogData) :
    (addLogEntry ts level message details d).logs.length = d.logs.length + 1 ∧
    (addLogEntry ts level message details d).stats.errors
        = (if level = "ERROR" then d.stats.errors + 1 else d.stats.errors) ∧
    (addLogEntry ts level message details d).stats.warnings
        = (if level = "WARNING" then d.stats.warnings + 1 else d.stats.warnings) ∧
    (addLogEntry ts level message details d).stats.startTime = d.stats.startTime ∧
    (addLogEntry ts level message details d).stats.endTime = d.stats.endTime ∧
    (addLogEntry ts level message details d).stats.totalComponents = d.stats.totalComponents ∧
    (addLogEntry ts level message details d).stats.processedComponents = d.stats.processedComponents := by
  by_cases h1 : level = "ERROR"
  · subst h1; simp [addLogEntry]
  · by_cases h2 : level = "WARNING"
    · subst h2; simp [addLogEntry]
    · simp [addLogEntry, h1, h2]

/-- Claim C10: a confirmed `clearLogs` leaves `startTime`, `endTime`,
`totalComponents`, `processedComponents` and the stored config unchanged; only
the three sequences and the two counters are reset. -/
theorem clearLogs_frame (d : LogData) :
    (clearLogs true d).stats.startTime = d.stats.startTime ∧
    (clearLogs true d).stats.endTime = d.stats.endTime ∧
    (clearLogs true d).stats.totalComponents = d.stats.totalComponents ∧
    (clearLogs true d).stats.processedComponents = d.stats.processedComponents ∧
    (clearLogs true d).config = d.config := by
  simp [clearLogs]

/-- Claim C5: with only the logs checkbox checked, the export outcome (in
particular the generated file content, in every format) does not depend on the
`apiCalls` or `rateLimitEvents` sequences — nor on any other part of the
aggregator state beyond `logs`: two states with equal `logs` export
identically. -/
theorem exportLogs_onlyLogs_independent (format filenameInput defaultFilename exportTime : String)
    (d d' : LogData) (h : d.logs = d'.logs) :
    exportLogs format filenameInput defaultFilename onlyLogsSections d exportTime =
      exportLogs format filenameInput defaultFilename onlyLogsSections d' exportTime := by
  have hdata : buildExportData onlyLogsSections d exportTime format =
      buildExportData onlyLogsSections d' exportTime format := by
    simp [buildExportData, onlyLogsSections, h]
  simp only [exportLogs, hdata]

/-- Witness for C5 at a concrete pair of states that differ in their API-call
and rate-limit sequences but share their logs. -/
theorem exportLogs_onlyLogs_independent_witness :
    exportLogs "json" "report" "fallback" onlyLogsSections
        ⟨[⟨"t1", "INFO", "hello", none⟩], [], [], none, ⟨none, none, 0, 0, 0, 0⟩⟩ "T"
      = exportLogs "json" "report" "fallback" onlyLogsSections
        ⟨[⟨"t1", "INFO", "hello", none⟩],
         [⟨"t2", "claude", "m", 1, 2, 3, none⟩],
         [⟨"t3", "RATE_LIMIT_HIT", "claude", "requests", 9, 10, "msg", "WARNING"⟩],
         none, ⟨none, none, 0, 0, 1, 2⟩⟩ "T" :=
  exportLogs_onlyLogs_independent "json" "report" "fallback" "T" _ _ rfl

/-- Claim C6: an unrecognized export format only reports the
`Unknown export format` error: no download is invoked, no content generated,
the modal stays open. -/
theorem exportLogs_unknown_format (format filenameInput defaultFilename exportTime : String)
    (sections : Sections) (d : LogData)
    (h1 : format ≠ "json") (h2 : format ≠ "txt") (h3 : format ≠ "csv") :
    exportLogs format filenameInput defaultFilename sections d exportTime =
      { downloads := [], messages := [("error", "Unknown export format")], modalClosed := false } := by
  simp [exportLogs, h1, h2, h3]

/-- Witness for C6 at the format `xml` of the spec example. -/
theorem exportLogs_unknown_format_witness :
    exportLogs "xml" "f" "g" onlyLogsSections initialLogData "T" =
      { downloads := [], messages := [("error", "Unknown export format")], modalClosed := false } :=
  exportLogs_unknown_format "xml" "f" "g" "T" onlyLogsSections initialLogData
    (by decide) (by decide) (by decide)

/-- Claim C7 counterexample: the claim says every embedded double quote in a
record's field values is escaped by doubling, but the code only escapes the
message fields; a log entry whose level contains a quote is exported with that
quote unescaped, so at this snapshot the export differs from the claimed
form. -/
theorem generateCSVExport_claim_false :
    generateCSVExport ⟨⟨"T", "csv", "1.0"⟩, some [⟨"t", "IN\"FO", "m", none⟩], none, none, none, none⟩ ≠
      generateCSVExportClaimed ⟨⟨"T", "csv", "1.0"⟩, some [⟨"t", "IN\"FO", "m", none⟩], none, none, none, none⟩ := by
  decide

/-- Claim C7 (amended): for every snapshot the CSV export is the single header
row followed by one row per log entry, then one per API call, then one per
rate-limit event, in that section order — with double quotes doubled only in
the message field of log entries and rate-limit events, all other field values
substituted verbatim. -/
theorem generateCSVExport_structure (data : ExportData) :
    generateCSVExport data = generateCSVExportSpec data := by
  obtain ⟨md, logs, calls, events, cfg, stats⟩ := data
  cases logs <;> cases calls <;> cases events <;>
    simp only [generateCSVExport, generateCSVExportSpec, join_map_if_pos,
      Option.getD_some, Option.getD_none, List.map_nil, string_join_nil]

/-- Claim C8: `updateProviderLimitsDisplay` renders the placeholder when the
static table has no entry for the provider/tier pair, and otherwise renders
the limits with an effective request quota of 80% of the nominal limit,
`⌊requests * 0.8⌋`. -/
theorem updateProviderLimitsDisplay_spec (provider tier : String) :
    (providerLimits provider tier = none →
      updateProviderLimitsDisplay provider tier = noLimitsHtml) ∧
    (∀ l, providerLimits provider tier = some l →
      updateProviderLimitsDisplay provider tier
        = limitsHtml l (Nat.floor ((l.requests : ℚ) * 0.8))) := by
  have hfloor : ∀ n : Nat, Nat.floor ((n : ℚ) * 0.8) = n * 8 / 10 := by
    intro n
    have h : (n : ℚ) * 0.8 = ((n * 8 : ℕ) : ℚ) / ((10 : ℕ) : ℚ) := by
      push_cast
      ring
    rw [h, Nat.floor_div_nat, Nat.floor_natCast]
  constructor
  · intro h
    simp [updateProviderLimitsDisplay, h]
  · intro l h
    simp [updateProviderLimitsDisplay, h, hfloor]

/-- Witness for C8 at the `claude`/`standard` entry of the table (nominal 50
requests, effective 40) and at an unknown pair. -/
theorem updateProviderLimitsDisplay_spec_witness :
    updateProviderLimitsDisplay "claude" "standard"
        = limitsHtml ⟨50, "20K", "8K", "Standard"⟩ (Nat.floor ((50 : ℚ) * 0.8)) ∧
    updateProviderLimitsDisplay "claude" "free" = noLimitsHtml :=
  ⟨(updateProviderLimitsDisplay_spec "claude" "standard").2 ⟨50, "20K", "8K", "Standard"⟩ rfl,
   (updateProviderLimitsDisplay_spec "claude" "free").1 rfl⟩

/-- Claim C1 counterexample: on the full configuration record whose
temperature is 0 (every section and field present), the round trip does not
return the record with numeric fields parsed from their string forms — the
`temperature || 0.1` defaulting replaces the falsy 0 with 0.1. -/
theorem roundTrip_claim_false :
    buildConfigFromForm (applyConfigToForm
        ⟨some ⟨"claude", "key", "claude-3", JSNum.dec 0 0, JSNum.dec 4096 0⟩,
         some ⟨JSNum.dec 2 0, JSNum.dec 1 0, JSNum.dec 1 0⟩,
         some ⟨false⟩, "standard",
         some ⟨true, JSNum.dec 8 0, JSNum.dec 2000 0, true, JSNum.dec 3 0⟩⟩
        ⟨"", "", "", "", "", "", false, "", "", false, "", "", "", "", false, ""⟩) ≠
      roundTripExpected
        ⟨some ⟨"claude", "key", "claude-3", JSNum.dec 0 0, JSNum.dec 4096 0⟩,
         some ⟨JSNum.dec 2 0, JSNum.dec 1 0, JSNum.dec 1 0⟩,
         some ⟨false⟩, "standard",
         some ⟨true, JSNum.dec 8 0, JSNum.dec 2000 0, true, JSNum.dec 3 0⟩⟩ := by
  decide

/-- Claim C1 (amended): on a full configuration record all of whose fields the
`||` defaulting treats as present — provider type, model and tier nonempty,
every numeric field truthy (nonzero, non-NaN) — `buildConfigFromForm` after
`applyConfigToForm` returns the input record with each numeric field replaced
by the parsed (integer or floating-point, per field) value of its string
form. -/
theorem buildConfigFromForm_applyConfigToForm_roundTrip
    (l : LLMConfig) (fc : FlowControl) (dso : DocstringOptions) (uo : UserOverrides)
    (tier : String) (form : FormState)
    (htype : l.type ≠ "") (hmodel : l.model ≠ "")
    (htemp : jsTruthy l.temperature = true) (hmax : jsTruthy l.max_tokens = true)
    (hfc1 : jsTruthy fc.max_reader_search_attempts = true)
    (hfc2 : jsTruthy fc.max_verifier_rejections = true)
    (hfc3 : jsTruthy fc.status_sleep_time = true)
    (htier : tier ≠ "")
    (huo1 : jsTruthy uo.max_components_per_minute = true)
    (huo2 : jsTruthy uo.delay_between_requests = true)
    (huo3 : jsTruthy uo.batch_size = true) :
    buildConfigFromForm (applyConfigToForm ⟨some l, some fc, some dso, tier, some uo⟩ form)
      = roundTripExpected ⟨some l, some fc, some dso, tier, some uo⟩ := by
  simp [buildConfigFromForm, applyConfigToForm, roundTripExpected, jsOrStr, jsOrNum,
    htype, hmodel, htemp, hmax, hfc1, hfc2, hfc3, htier, huo1, huo2, huo3]
  exact fun h => h.symm

/-- Witness for C1 (amended) at the server default configuration. -/
theorem buildConfigFromForm_applyConfigToForm_roundTrip_witness :
    buildConfigFromForm (applyConfigToForm
        ⟨some ⟨"gemini", "", "gemini-2.5-pro", JSNum.dec 1 1, JSNum.dec 16384 0⟩,
         some ⟨JSNum.dec 2 0, JSNum.dec 1 0, JSNum.dec 1 0⟩,
         some ⟨true⟩, "free",
         some ⟨true, JSNum.dec 8 0, JSNum.dec 2000 0, false, JSNum.dec 3 0⟩⟩
        ⟨"", "", "", "", "", "", false, "", "", false, "", "", "", "", false, ""⟩)
      = roundTripExpected
        ⟨some ⟨"gemini", "", "gemini-2.5-pro", JSNum.dec 1 1, JSNum.dec 16384 0⟩,
         some ⟨JSNum.dec 2 0, JSNum.dec 1 0, JSNum.dec 1 0⟩,
         some ⟨true⟩, "free",
         some ⟨true, JSNum.dec 8 0, JSNum.dec 2000 0, false, JSNum.dec 3 0⟩⟩ :=
  buildConfigFromForm_applyConfigToForm_roundTrip
    ⟨"gemini", "", "gemini-2.5-pro", JSNum.dec 1 1, JSNum.dec 16384 0⟩
    ⟨JSNum.dec 2 0, JSNum.dec 1 0, JSNum.dec 1 0⟩ ⟨true⟩
    ⟨true, JSNum.dec 8 0, JSNum.dec 2000 0, false, JSNum.dec 3 0⟩ "free"
    ⟨"", "", "", "", "", "", false, "", "", false, "", "", "", "", false, ""⟩
    (by decide) (by decide) (by decide) (by decide) (by decide) (by decide)
    (by decide) (by decide) (by decide) (by decide) (by decide)

/-- Claim C2 counterexample: on a configuration record missing the `llm`
section, `applyConfigToForm` does not leave `#llm-type` at its documented
fallback `gemini` — the whole section block is skipped, so the field keeps
whatever value it had (here `openai`). -/
theorem applyConfigToForm_absent_claim_false :
    (applyConfigToForm ⟨none, none, none, "", none⟩
        ⟨"openai", "k", "gpt", "1", "2", "premium", true, "3", "4", true, "5",
         "6", "7", "8", true, ""⟩).llmType ≠ "gemini" := by
  decide

/-- Claim C2 (amended): for every configuration record and every absent
optional section, `applyConfigToForm` leaves each form field of that section
unchanged (equal to its prior value, not necessarily the fallback; the
per-field fallbacks apply only inside sections that are present). -/
theorem applyConfigToForm_absent_sections (config : Config) (form : FormState) :
    (config.llm = none →
      (applyConfigToForm config form).llmType = form.llmType ∧
      (applyConfigToForm config form).llmApiKey = form.llmApiKey ∧
      (applyConfigToForm config form).llmModel = form.llmModel ∧
      (applyConfigToForm config form).llmTemperature = form.llmTemperature ∧
      (applyConfigToForm config form).llmMaxTokens = form.llmMaxTokens) ∧
    (config.flow_control = none →
      (applyConfigToForm config form).maxReaderSearchAttempts = form.maxReaderSearchAttempts ∧
      (applyConfigToForm config form).maxVerifierRejections = form.maxVerifierRejections ∧
      (applyConfigToForm config form).statusSleepTime = form.statusSleepTime) ∧
    (config.docstring_options = none →
      (applyConfigToForm config form).overwriteDocstrings = form.overwriteDocstrings) ∧
    (config.user_overrides = none →
      (applyConfigToForm config form).enableConservativeLimits = form.enableConservativeLimits ∧
      (applyConfigToForm config form).maxComponentsPerMinute = form.maxComponentsPerMinute ∧
      (applyConfigToForm config form).delayBetweenRequests = form.delayBetweenRequests ∧
      (applyConfigToForm config form).enableBatchProcessing = form.enableBatchProcessing ∧
      (applyConfigToForm config form).batchSize = form.batchSize) ∧
    (config.current_provider_tier = "" →
      (applyConfigToForm config form).providerTier = form.providerTier) := by
  obtain ⟨llm, fc, dso, tier, uo⟩ := config
  cases llm <;> cases fc <;> cases dso <;> cases uo <;>
    by_cases htier : tier = "" <;>
      simp [applyConfigToForm, htier]

/-- Witness for C2 (amended) at a record missing every optional section, each
implication discharged. -/
theorem applyConfigToForm_absent_sections_witness :
    (applyConfigToForm ⟨none, none, none, "", none⟩
        ⟨"openai", "k", "gpt", "1", "2", "premium", true, "3", "4", true, "5",
         "6", "7", "8", true, "x"⟩).llmType = "openai" ∧
    (applyConfigToForm ⟨none, none, none, "", none⟩
        ⟨"openai", "k", "gpt", "1", "2", "premium", true, "3", "4", true, "5",
         "6", "7", "8", true, "x"⟩).maxReaderSearchAttempts = "6" ∧
    (applyConfigToForm ⟨none, none, none, "", none⟩
        ⟨"openai", "k", "gpt", "1", "2", "premium", true, "3", "4", true, "5",
         "6", "7", "8", true, "x"⟩).overwriteDocstrings = true ∧
    (applyConfigToForm ⟨none, none, none, "", none⟩
        ⟨"openai", "k", "gpt", "1", "2", "premium", true, "3", "4", true, "5",
         "6", "7", "8", true, "x"⟩).maxComponentsPerMinute = "3" ∧
    (applyConfigToForm ⟨none, none, none, "", none⟩
        ⟨"openai", "k", "gpt", "1", "2", "premium", true, "3", "4", true, "5",
         "6", "7", "8", true, "x"⟩).providerTier = "premium" :=
  ⟨((applyConfigToForm_absent_sections ⟨none, none, none, "", none⟩
      ⟨"openai", "k", "gpt", "1", "2", "premium", true, "3", "4", true, "5",
       "6", "7", "8", true, "x"⟩).1 rfl).1,
   ((applyConfigToForm_absent_sections ⟨none, none, none, "", none⟩
      ⟨"openai", "k", "gpt", "1", "2", "premium", true, "3", "4", true, "5",
       "6", "7", "8", true, "x"⟩).2.1 rfl).1,
   (applyConfigToForm_absent_sections ⟨none, none, none, "", none⟩
      ⟨"openai", "k", "gpt", "1", "2", "premium", true, "3", "4", true, "5",
       "6", "7", "8", true, "x"⟩).2.2.1 rfl,
   ((applyConfigToForm_absent_sections ⟨none, none, none, "", none⟩
      ⟨"openai", "k", "gpt", "1", "2", "premium", true, "3", "4", true, "5",
       "6", "7", "8", true, "x"⟩).2.2.2.1 rfl).2.1,
   (applyConfigToForm_absent_sections ⟨none, none, none, "", none⟩
      ⟨"openai", "k", "gpt", "1", "2", "premium", true, "3", "4", true, "5",
       "6", "7", "8", true, "x"⟩).2.2.2.2 rfl⟩

end Scribe
